import Mathlib

/-!
Shallow embedding of the d2-diagram-backend Lambda handler
(createDiagram / listDiagrams / getDiagram / deleteDiagram over a
DynamoDB catalog, an S3 blob store and an external D2 render service).

External collaborators (DynamoDB, S3, the render worker, the clock and
id generator) are modelled as explicit state and outcome parameters:
the catalog is a list of rows, the blob store a list of keys, and each
network call's outcome is supplied by an environment record.
-/

namespace D2

/-! ### Byte-wise lexicographic order on character lists
(models DynamoDB sort-key ordering). -/

def lexLt : List Char → List Char → Bool
  | [], [] => false
  | [], _ :: _ => true
  | _ :: _, [] => false
  | a :: as, b :: bs =>
    if a.toNat < b.toNat then true
    else if b.toNat < a.toNat then false
    else lexLt as bs

/-! ### String scanning helpers used by the error-extraction logic. -/

def startsWithL : List Char → List Char → Bool
  | [], _ => true
  | _ :: _, [] => false
  | p :: ps, c :: cs => if p = c then startsWithL ps cs else false

def containsSeq (hay needle : List Char) : Bool :=
  if startsWithL needle hay then true
  else
    match hay with
    | [] => false
    | _ :: t => containsSeq t needle

def containsStr (hay needle : String) : Bool :=
  containsSeq hay.data needle.data

/-- The literal searched for by the regex in renderD2Diagram:
the nine characters of a quoted JSON message field name. -/
def msgLit : List Char := ("\"message\":\"").data

/-- Leftmost match of the regex over the message field: at each position
where the literal occurs, the capture is the maximal run of non-quote
characters after it; the match succeeds when that run is non-empty and
followed by a closing quote. -/
def findCapture : List Char → Option (List Char)
  | [] => none
  | c :: cs =>
    if startsWithL msgLit (c :: cs) then
      let rest := (c :: cs).drop msgLit.length
      let cap := rest.takeWhile (fun ch => !(ch == '"'))
      match cap, rest.drop cap.length with
      | _ :: _, '"' :: _ => some cap
      | _, _ => findCapture cs
    else findCapture cs

def extractMessage (s : String) : Option String :=
  (findCapture s.data).map (fun l => String.mk l)

/-- The replace of the two-character escape sequence backslash-n by a
newline, applied globally. -/
def replaceEscN : List Char → List Char
  | '\\' :: 'n' :: rest => '\n' :: replaceEscN rest
  | c :: rest => c :: replaceEscN rest
  | [] => []

/-! ### Data model -/

/-- One DynamoDB catalog row as written by createDiagram. -/
structure CatalogRow where
  PK : String
  SK : String
  diagramId : String
  diagramType : String
  createdAt : String
  s3Key : String
  metadata : List (String × String)
deriving DecidableEq

/-- Observable external state: the catalog table and the set of blob
keys present in the bucket. -/
structure St where
  catalog : List CatalogRow
  blobs : List String
deriving DecidableEq

structure CreateDiagramRequest where
  d2Text : String
  diagramType : String
  format : Option String
  metadata : Option (List (String × String))
deriving DecidableEq

/-- Outcome of JSON.parse on the request body. -/
inductive BodyParse where
  | malformed (msg : String)
  | parsed (req : CreateDiagramRequest)
deriving DecidableEq

/-- Inbound request: verified JWT claims subject (none models a missing
claim set or a missing sub field; the empty string is falsy too), the
parsed body, and the diagramId path parameter. -/
structure Event where
  claimsSub : Option String
  body : Option BodyParse
  pathDiagramId : Option String
deriving DecidableEq

structure DiagramView where
  diagramId : String
  diagramType : String
  createdAt : String
  s3Url : String
  svgContent : String
  metadata : List (String × String)
deriving DecidableEq

inductive RespBody where
  | err (error : String) (message : Option String)
  | created (diagramId diagramType createdAt s3Url svgContent : String) (renderDuration : Nat)
  | listed (diagrams : List DiagramView)
  | fetched (d : DiagramView)
  | deleted (message : String)
deriving DecidableEq

structure Response where
  statusCode : Nat
  body : RespBody
deriving DecidableEq

/-- External calls an operation may issue, in issue order. -/
inductive ExtCall where
  | render
  | putCatalog
  | sign
  | fetchBlob
  | blobDelete
  | rowDelete
deriving DecidableEq

/-- Observable outcome of the HTTP round trip to the D2 render service.
For a 200 response the branch taken by JSON.parse and the field checks
is recorded; for a non-200 response the raw body text is kept. -/
inductive RenderOutcome where
  | ok (s3Key : String)
  | invalid
  | parseFailure
  | status (code : Nat) (data : String)
  | timeout
  | reqError (msg : String)
deriving DecidableEq

/-- Outcome of the S3 GetObject used by fetchSvgFromS3. -/
inductive S3GetOutcome where
  | ok (content : String)
  | emptyBody
  | err (msg : String)
deriving DecidableEq

/-- Outcomes for the collaborators used after a successful render. -/
structure CreateEnv where
  renderOutcome : RenderOutcome
  putErr : Option String
  sign : String → Except String String
  s3get : String → S3GetOutcome

structure FetchEnv where
  sign : String → Except String String
  s3get : String → S3GetOutcome

structure DeleteEnv where
  s3DelErr : Option String
  rowDelErr : Option String

/-- Clock and id generator inputs of one Create call. -/
structure Gen where
  createdAt : String
  diagramId : String
  renderMs : Nat
deriving DecidableEq

/-! ### Operations -/

def getUserId (e : Event) : Except String String :=
  match e.claimsSub with
  | none => .error "Unauthorized: No valid user identity found"
  | some s =>
    if s = "" then .error "Unauthorized: No valid user identity found"
    else .ok s

def callD2Service (o : RenderOutcome) : Except String String :=
  match o with
  | .ok s3Key => .ok s3Key
  | .invalid => .error "D2 service returned invalid response"
  | .parseFailure => .error "Failed to parse D2 service response"
  | .status code data =>
    .error ("D2 service returned status " ++ toString code ++ ": " ++ data)
  | .timeout => .error "D2 service request timed out"
  | .reqError msg => .error msg

def genericRenderFailureMsg : String :=
  "Diagram rendering failed. Please check your D2 syntax and try again."

/-- The body of the inner try block of renderD2Diagram: on a 500 status
it extracts the embedded diagnostic and throws a D2 Syntax Error
carrying it. -/
def tryExtractD2Error (errorMessage : String) : Except String Unit :=
  if containsStr errorMessage "D2 service returned status 500" then
    match extractMessage errorMessage with
    | some m => .error ("D2 Syntax Error:\n" ++ String.mk (replaceEscN m.data))
    | none => .ok ()
  else .ok ()

/-- renderD2Diagram as written: the D2 Syntax Error is thrown inside the
same try block whose catch swallows it ("Fall through to generic
error"), so the extracted diagnostic is discarded and every failure
surfaces as the generic message. -/
def renderD2Diagram (o : RenderOutcome) : Except String String :=
  match callD2Service o with
  | .ok s3Key => .ok s3Key
  | .error errorMessage =>
    match tryExtractD2Error errorMessage with
    | .error _ => .error genericRenderFailureMsg
    | .ok _ => .error genericRenderFailureMsg

def fetchSvgFromS3 (o : S3GetOutcome) : Except String String :=
  match o with
  | .ok content => .ok content
  | .emptyBody => .error "Failed to fetch diagram content from S3"
  | .err _ => .error "Failed to fetch diagram content from S3"

def userPK (u : String) : String := "USER#" ++ u

def rowSK (createdAt diagramId : String) : String :=
  "DIAGRAM#" ++ createdAt ++ "#" ++ diagramId

/-- DynamoDB put: overwrites any row with the same primary key. -/
def putRow (r : CatalogRow) (cat : List CatalogRow) : List CatalogRow :=
  r :: cat.filter (fun x => !(x.PK == r.PK && x.SK == r.SK))

/-- Sort-key order, descending (ScanIndexForward false). -/
def skDesc (a b : CatalogRow) : Prop := lexLt a.SK.data b.SK.data = false

/-- Sort-key order, ascending (the query default). -/
def skAsc (a b : CatalogRow) : Prop := lexLt b.SK.data a.SK.data = false

instance : DecidableRel skDesc := fun _ _ => instDecidableEqBool _ _

instance : DecidableRel skAsc := fun _ _ => instDecidableEqBool _ _

/-- Query on PK alone with ScanIndexForward false. -/
def queryPKDesc (u : String) (cat : List CatalogRow) : List CatalogRow :=
  List.insertionSort skDesc (cat.filter (fun r => r.PK == userPK u))

def matchRow (u id : String) (r : CatalogRow) : Bool :=
  r.PK == userPK u && r.diagramId == id

/-- Query on PK with the diagramId filter expression, default ascending
order. -/
def queryByIdAsc (u id : String) (cat : List CatalogRow) : List CatalogRow :=
  List.insertionSort skAsc (cat.filter (matchRow u id))

/-- The catalog item assembled by createDiagram. -/
def newItem (userId : String) (body : CreateDiagramRequest) (gen : Gen)
    (s3Key : String) : CatalogRow :=
  { PK := userPK userId
    SK := rowSK gen.createdAt gen.diagramId
    diagramId := gen.diagramId
    diagramType := body.diagramType
    createdAt := gen.createdAt
    s3Key := s3Key
    metadata := body.metadata.getD [] }

structure CreateOut where
  resp : Response
  st : St
  calls : List ExtCall

def createDiagram (e : Event) (env : CreateEnv) (gen : Gen) (st : St) : CreateOut :=
  match getUserId e with
  | .error msg => ⟨⟨500, .err "Failed to create diagram" (some msg)⟩, st, []⟩
  | .ok userId =>
    match e.body with
    | none => ⟨⟨400, .err "Missing request body" none⟩, st, []⟩
    | some (.malformed msg) =>
      ⟨⟨500, .err "Failed to create diagram" (some msg)⟩, st, []⟩
    | some (.parsed body) =>
      if body.d2Text = "" ∨ body.diagramType = "" then
        ⟨⟨400, .err "Missing required fields: d2Text, diagramType" none⟩, st, []⟩
      else
        match renderD2Diagram env.renderOutcome with
        | .error msg =>
          ⟨⟨500, .err "Failed to create diagram" (some msg)⟩, st, [.render]⟩
        | .ok s3Key =>
          let stR : St := ⟨st.catalog, s3Key :: st.blobs⟩
          let item := newItem userId body gen s3Key
          match env.putErr with
          | some m =>
            ⟨⟨500, .err "Failed to create diagram" (some m)⟩, stR,
              [.render, .putCatalog]⟩
          | none =>
            let stP : St := ⟨putRow item stR.catalog, stR.blobs⟩
            match env.sign s3Key with
            | .error m =>
              ⟨⟨500, .err "Failed to create diagram" (some m)⟩, stP,
                [.render, .putCatalog, .sign]⟩
            | .ok url =>
              match fetchSvgFromS3 (env.s3get s3Key) with
              | .error m =>
                ⟨⟨500, .err "Failed to create diagram" (some m)⟩, stP,
                  [.render, .putCatalog, .sign, .fetchBlob]⟩
              | .ok svg =>
                ⟨⟨201, .created gen.diagramId body.diagramType gen.createdAt
                    url svg gen.renderMs⟩, stP,
                  [.render, .putCatalog, .sign, .fetchBlob]⟩

/-- The per-row work of listDiagrams and getDiagram: signed URL then
content fetch, building the returned record. -/
def viewStep (env : FetchEnv) (r : CatalogRow) : Except String DiagramView :=
  match env.sign r.s3Key with
  | .error m => .error m
  | .ok url =>
    match fetchSvgFromS3 (env.s3get r.s3Key) with
    | .error m => .error m
    | .ok svg => .ok ⟨r.diagramId, r.diagramType, r.createdAt, url, svg, r.metadata⟩

/-- Promise.all over the queried rows: the first rejection rejects the
whole batch. -/
def promiseAll (env : FetchEnv) : List CatalogRow → Except String (List DiagramView)
  | [] => .ok []
  | r :: rs =>
    match viewStep env r with
    | .error m => .error m
    | .ok v =>
      match promiseAll env rs with
      | .error m => .error m
      | .ok vs => .ok (v :: vs)

def listDiagrams (e : Event) (env : FetchEnv) (st : St) : Response :=
  match getUserId e with
  | .error msg => ⟨500, .err "Failed to list diagrams" (some msg)⟩
  | .ok userId =>
    match promiseAll env (queryPKDesc userId st.catalog) with
    | .error m => ⟨500, .err "Failed to list diagrams" (some m)⟩
    | .ok vs => ⟨200, .listed vs⟩

def getDiagram (e : Event) (env : FetchEnv) (st : St) : Response :=
  match getUserId e with
  | .error msg => ⟨500, .err "Failed to get diagram" (some msg)⟩
  | .ok userId =>
    match e.pathDiagramId with
    | none => ⟨400, .err "Missing diagramId" none⟩
    | some id =>
      if id = "" then ⟨400, .err "Missing diagramId" none⟩
      else
        match queryByIdAsc userId id st.catalog with
        | [] => ⟨404, .err "Diagram not found" none⟩
        | item :: _ =>
          match viewStep env item with
          | .error m => ⟨500, .err "Failed to get diagram" (some m)⟩
          | .ok v => ⟨200, .fetched v⟩

structure DeleteOut where
  resp : Response
  st : St
  calls : List ExtCall
  states : List St

def deleteDiagram (e : Event) (env : DeleteEnv) (st : St) : DeleteOut :=
  match getUserId e with
  | .error msg => ⟨⟨500, .err "Failed to delete diagram" (some msg)⟩, st, [], []⟩
  | .ok userId =>
    match e.pathDiagramId with
    | none => ⟨⟨400, .err "Missing diagramId" none⟩, st, [], []⟩
    | some id =>
      if id = "" then ⟨⟨400, .err "Missing diagramId" none⟩, st, [], []⟩
      else
        match queryByIdAsc userId id st.catalog with
        | [] => ⟨⟨404, .err "Diagram not found" none⟩, st, [], []⟩
        | item :: _ =>
          match env.s3DelErr with
          | some m =>
            ⟨⟨500, .err "Failed to delete diagram" (some m)⟩, st,
              [.blobDelete], [st]⟩
          | none =>
            let stB : St := ⟨st.catalog, st.blobs.filter (fun k => !(k == item.s3Key))⟩
            match env.rowDelErr with
            | some m =>
              ⟨⟨500, .err "Failed to delete diagram" (some m)⟩, stB,
                [.blobDelete, .rowDelete], [stB, stB]⟩
            | none =>
              let stD : St :=
                ⟨stB.catalog.filter (fun r => !(r.PK == item.PK && r.SK == item.SK)),
                  stB.blobs⟩
              ⟨⟨200, .deleted "Diagram deleted successfully"⟩, stD,
                [.blobDelete, .rowDelete], [stB, stD]⟩

/-! ### Derived observations -/

def listedViews (r : Response) : List DiagramView :=
  match r.body with
  | .listed ds => ds
  | _ => []

def listedCreatedAts (r : Response) : List String :=
  (listedViews r).map (fun v => v.createdAt)

/-- A row as createDiagram writes it: the sort key is assembled from the
createdAt and id attributes, and createdAt is a fixed-width (24
character) ISO-8601 timestamp. -/
def RowWF (r : CatalogRow) : Prop :=
  r.SK = rowSK r.createdAt r.diagramId ∧ r.createdAt.data.length = 24

/-- A catalog row for owner u and diagram id is present. -/
def rowPresent (u id : String) (s : St) : Prop :=
  ∃ r ∈ s.catalog, r.PK = userPK u ∧ r.diagramId = id

instance (u id : String) (s : St) : Decidable (rowPresent u id s) := by
  unfold rowPresent
  infer_instance

/-! ### Concrete inputs used by counterexamples and witnesses -/

def st0 : St := ⟨[], []⟩

def gen0 : Gen := ⟨"2024-01-01T00:00:00.000Z", "1700000000000-ab12", 42⟩

def okBody : CreateDiagramRequest := ⟨"x -> y", "flow", none, none⟩

def okEvent : Event := ⟨some "alice", some (.parsed okBody), none⟩

def noAuthEvent : Event := ⟨none, some (.parsed okBody), some "d1"⟩

def envOk : CreateEnv :=
  ⟨.ok "k1", none, fun _ => .ok "https://signed", fun _ => .ok "<svg/>"⟩

/-- A render-worker 500 body embedding the diagnostic. -/
def d2ErrData : String := "\"message\":\"unexpected token\""

def c1Env : CreateEnv :=
  ⟨.status 500 d2ErrData, none, fun _ => .ok "https://signed", fun _ => .ok "<svg/>"⟩

def envRenderDown : CreateEnv :=
  ⟨.timeout, none, fun _ => .ok "https://signed", fun _ => .ok "<svg/>"⟩

def envSignFails : CreateEnv :=
  ⟨.ok "k1", none, fun _ => .error "sign failed", fun _ => .ok "<svg/>"⟩

def fenvOk : FetchEnv := ⟨fun _ => .ok "https://signed", fun _ => .ok "<svg/>"⟩

def denvOk : DeleteEnv := ⟨none, none⟩

def ts0 : String := "2024-01-01T00:00:00.000Z"

def rowA : CatalogRow := ⟨userPK "alice", rowSK ts0 "ida", "ida", "flow", ts0, "ka", []⟩

def rowB : CatalogRow := ⟨userPK "alice", rowSK ts0 "idb", "idb", "flow", ts0, "kb", []⟩

def rowBob : CatalogRow :=
  ⟨userPK "bob", rowSK ts0 "ida", "ida", "flow", ts0, "kbob", []⟩

def st6 : St := ⟨[rowA, rowB], ["ka", "kb"]⟩

def st7 : St := ⟨[rowA], ["ka"]⟩

def st9 : St := ⟨[rowA, rowBob], ["ka", "kbob"]⟩

def listEvent : Event := ⟨some "alice", none, none⟩

def delEventA : Event := ⟨some "alice", none, some "ida"⟩

def delEventBob : Event := ⟨some "bob", none, some "ida"⟩

def absentIdEvent : Event := ⟨some "alice", none, some "zz"⟩

def emptyTextEvent : Event := ⟨some "alice", some (.parsed ⟨"", "flow", none, none⟩), none⟩

instance (r : CatalogRow) : Decidable (RowWF r) := by
  unfold RowWF
  infer_instance

/-! ### Order lemmas for the sort-key comparison -/

theorem lexLt_false_or : ∀ a b : List Char, lexLt a b = false ∨ lexLt b a = false := by
  intro a
  induction a with
  | nil => intro b; cases b <;> simp [lexLt]
  | cons x xs ih =>
    intro b
    cases b with
    | nil => simp [lexLt]
    | cons y ys =>
      by_cases h1 : x.toNat < y.toNat
      · right; simp [lexLt, h1, Nat.lt_asymm h1]
      · by_cases h2 : y.toNat < x.toNat
        · left; simp [lexLt, h1, h2]
        · rcases ih ys with h | h
          · left; simp [lexLt, h1, h2, h]
          · right; simp [lexLt, h1, h2, h]

theorem lexLt_false_trans : ∀ {a b c : List Char},
    lexLt a b = false → lexLt b c = false → lexLt a c = false := by
  intro a
  induction a with
  | nil =>
    intro b c hab hbc
    cases b <;> cases c <;> simp_all [lexLt]
  | cons x xs ih =>
    intro b c hab hbc
    cases b with
    | nil => cases c <;> simp_all [lexLt]
    | cons y ys =>
      cases c with
      | nil => simp [lexLt]
      | cons z zs =>
        by_cases hxy : x.toNat < y.toNat
        · simp [lexLt, hxy] at hab
        · by_cases hyz : y.toNat < z.toNat
          · simp [lexLt, hyz] at hbc
          · have hxz : ¬ x.toNat < z.toNat := by omega
            by_cases hzx : z.toNat < x.toNat
            · simp [lexLt, hxz, hzx]
            · have hyx : ¬ y.toNat < x.toNat := by omega
              have hzy : ¬ z.toNat < y.toNat := by omega
              simp only [lexLt, if_neg hxy, if_neg hyx] at hab
              simp only [lexLt, if_neg hyz, if_neg hzy] at hbc
              simp only [lexLt, if_neg hxz, if_neg hzx]
              exact ih hab hbc

theorem lexLt_append_left : ∀ (p a b : List Char),
    lexLt (p ++ a) (p ++ b) = lexLt a b := by
  intro p
  induction p with
  | nil => intro a b; simp
  | cons x ps ih => intro a b; simp [lexLt, ih]

theorem lexLt_append_eqlen : ∀ (a b x y : List Char), a.length = b.length →
    lexLt a b = true → lexLt (a ++ x) (b ++ y) = true := by
  intro a
  induction a with
  | nil =>
    intro b x y hl hab
    cases b <;> simp_all [lexLt]
  | cons p ps ih =>
    intro b x y hl hab
    cases b with
    | nil => simp at hl
    | cons q qs =>
      by_cases hpq : p.toNat < q.toNat
      · simp [lexLt, hpq]
      · by_cases hqp : q.toNat < p.toNat
        · simp [lexLt, hpq, hqp] at hab
        · simp only [lexLt, if_neg hpq, if_neg hqp] at hab
          simp only [List.cons_append, lexLt, if_neg hpq, if_neg hqp]
          exact ih qs x y (by simpa using hl) hab

instance : IsTotal CatalogRow skDesc :=
  ⟨fun a b => lexLt_false_or a.SK.data b.SK.data⟩

instance : IsTrans CatalogRow skDesc :=
  ⟨fun _ _ _ h1 h2 => lexLt_false_trans h1 h2⟩

instance : IsTotal CatalogRow skAsc :=
  ⟨fun a b => (lexLt_false_or a.SK.data b.SK.data).symm⟩

instance : IsTrans CatalogRow skAsc :=
  ⟨fun _ _ _ h1 h2 => lexLt_false_trans h2 h1⟩

theorem string_data_inj {s t : String} (h : s.data = t.data) : s = t := by
  cases s
  cases t
  simp only at h
  rw [h]

theorem userPK_inj {a b : String} (h : userPK a = userPK b) : a = b := by
  have h2 := congrArg String.data h
  simp only [userPK, String.data_append] at h2
  exact string_data_inj (List.append_cancel_left h2)

/-- Well-formed rows written later have sort keys whose descending order
implies non-increasing createdAt order. -/
theorem skDesc_createdAt {r1 r2 : CatalogRow} (h1 : RowWF r1) (h2 : RowWF r2)
    (h : skDesc r1 r2) : lexLt r1.createdAt.data r2.createdAt.data = false := by
  rcases h1 with ⟨hsk1, hlen1⟩
  rcases h2 with ⟨hsk2, hlen2⟩
  by_contra hc
  have hc2 : lexLt r1.createdAt.data r2.createdAt.data = true := by
    cases hx : lexLt r1.createdAt.data r2.createdAt.data <;> simp_all
  have h3 := lexLt_append_eqlen r1.createdAt.data r2.createdAt.data
    (("#" ++ r1.diagramId).data) (("#" ++ r2.diagramId).data)
    (by rw [hlen1, hlen2]) hc2
  have h4 := lexLt_append_left ("DIAGRAM#" : String).data
    (r1.createdAt.data ++ ("#" ++ r1.diagramId).data)
    (r2.createdAt.data ++ ("#" ++ r2.diagramId).data)
  have e1 : r1.SK.data =
      ("DIAGRAM#" : String).data ++ (r1.createdAt.data ++ ("#" ++ r1.diagramId).data) := by
    rw [hsk1]; simp [rowSK, String.data_append]
  have e2 : r2.SK.data =
      ("DIAGRAM#" : String).data ++ (r2.createdAt.data ++ ("#" ++ r2.diagramId).data) := by
    rw [hsk2]; simp [rowSK, String.data_append]
  unfold skDesc at h
  rw [e1, e2, h4, h3] at h
  exact absurd h (by simp)

/-! ### Structural lemmas and claim theorems -/

theorem mem_putRow {x r : CatalogRow} {cat : List CatalogRow}
    (h : x ∈ putRow r cat) : x = r ∨ x ∈ cat := by
  simp only [putRow, List.mem_cons, List.mem_filter] at h
  tauto

theorem create_catalog_after_put (e : Event) (env : CreateEnv) (gen : Gen) (st : St)
    (u : String) (body : CreateDiagramRequest) (k : String)
    (hu : getUserId e = .ok u) (hb : e.body = some (.parsed body))
    (hv : ¬ (body.d2Text = "" ∨ body.diagramType = ""))
    (hrd : renderD2Diagram env.renderOutcome = .ok k) (hp : env.putErr = none) :
    (createDiagram e env gen st).st =
      ⟨putRow (newItem u body gen k) st.catalog, k :: st.blobs⟩ := by
  unfold createDiagram
  simp only [hu, hb, if_neg hv, hrd, hp]
  cases hs : env.sign k with
  | error m => rfl
  | ok url =>
    cases hf : fetchSvgFromS3 (env.s3get k) with
    | error m => rfl
    | ok svg => rfl

theorem create_row_provenance (e : Event) (env : CreateEnv) (gen : Gen) (st : St) :
    ∀ r ∈ (createDiagram e env gen st).st.catalog,
      r ∈ st.catalog ∨
        ∃ u body k, getUserId e = .ok u ∧ e.body = some (.parsed body) ∧
          renderD2Diagram env.renderOutcome = .ok k ∧ env.putErr = none ∧
          r = newItem u body gen k ∧
          (createDiagram e env gen st).st.blobs = k :: st.blobs := by
  intro r hr
  cases hu : getUserId e with
  | error m =>
    have hst : (createDiagram e env gen st).st.catalog = st.catalog := by
      unfold createDiagram; simp [hu]
    rw [hst] at hr; exact Or.inl hr
  | ok u =>
    cases hb : e.body with
    | none =>
      have hst : (createDiagram e env gen st).st.catalog = st.catalog := by
        unfold createDiagram; simp [hu, hb]
      rw [hst] at hr; exact Or.inl hr
    | some bp =>
      cases bp with
      | malformed msg =>
        have hst : (createDiagram e env gen st).st.catalog = st.catalog := by
          unfold createDiagram; simp [hu, hb]
        rw [hst] at hr; exact Or.inl hr
      | parsed body =>
        by_cases hv : body.d2Text = "" ∨ body.diagramType = ""
        · have hst : (createDiagram e env gen st).st.catalog = st.catalog := by
            unfold createDiagram; simp [hu, hb, hv]
          rw [hst] at hr; exact Or.inl hr
        · cases hrd : renderD2Diagram env.renderOutcome with
          | error m =>
            have hst : (createDiagram e env gen st).st.catalog = st.catalog := by
              unfold createDiagram; simp [hu, hb, hv, hrd]
            rw [hst] at hr; exact Or.inl hr
          | ok k =>
            cases hp : env.putErr with
            | some m =>
              have hst : (createDiagram e env gen st).st.catalog = st.catalog := by
                unfold createDiagram; simp [hu, hb, hv, hrd, hp]
              rw [hst] at hr; exact Or.inl hr
            | none =>
              have hst := create_catalog_after_put e env gen st u body k hu hb hv hrd hp
              rw [hst] at hr
              rcases mem_putRow hr with h | h
              · exact Or.inr ⟨u, body, k, rfl, rfl, rfl, rfl, h, by rw [hst]⟩
              · exact Or.inl h

/-- C1 (code bug evaluation): when the render worker answers HTTP 500 with a
body embedding the diagnostic "unexpected token", the structured extraction
does find the diagnostic and the inner block does throw a D2 Syntax Error
carrying it, yet the throw is swallowed by the enclosing catch, so the
surfaced 500 response carries only the generic message, which does not
contain the diagnostic; no catalog row is created. -/
theorem c1_render_500_diagnostic_swallowed :
    extractMessage ("D2 service returned status 500: " ++ d2ErrData) = some "unexpected token" ∧
    tryExtractD2Error ("D2 service returned status 500: " ++ d2ErrData) =
      .error ("D2 Syntax Error:\n" ++ "unexpected token") ∧
    (createDiagram okEvent c1Env gen0 st0).resp.statusCode = 500 ∧
    (createDiagram okEvent c1Env gen0 st0).resp.body =
      .err "Failed to create diagram" (some genericRenderFailureMsg) ∧
    containsStr genericRenderFailureMsg "unexpected token" = false ∧
    (createDiagram okEvent c1Env gen0 st0).st.catalog = [] := by
  refine ⟨by decide, by rfl, by decide, by decide, by decide, by decide⟩

/-- C2: if the render step fails for any reason, the catalog is unchanged and
the catalog put is never reached; moreover, for every outcome environment,
any row in the final catalog either pre-existed or carries a contentKey that
is present in the blob store at write time. -/
theorem c2_render_failure_no_catalog_row (e : Event) (env : CreateEnv) (gen : Gen) (st : St)
    (msg : String) (h : renderD2Diagram env.renderOutcome = .error msg) :
    (createDiagram e env gen st).st.catalog = st.catalog ∧
    ExtCall.putCatalog ∉ (createDiagram e env gen st).calls ∧
    ∀ envA : CreateEnv, ∀ r ∈ (createDiagram e envA gen st).st.catalog,
      r ∈ st.catalog ∨ r.s3Key ∈ (createDiagram e envA gen st).st.blobs := by
  have hsh : (createDiagram e env gen st).st.catalog = st.catalog ∧
      ((createDiagram e env gen st).calls = [] ∨
        (createDiagram e env gen st).calls = [ExtCall.render]) := by
    cases hu : getUserId e with
    | error m => unfold createDiagram; simp [hu]
    | ok u =>
      cases hb : e.body with
      | none => unfold createDiagram; simp [hu, hb]
      | some bp =>
        cases bp with
        | malformed m2 => unfold createDiagram; simp [hu, hb]
        | parsed body =>
          by_cases hv : body.d2Text = "" ∨ body.diagramType = ""
          · unfold createDiagram; simp [hu, hb, hv]
          · unfold createDiagram; simp [hu, hb, hv, h]
  refine ⟨hsh.1, ?_, ?_⟩
  · rcases hsh.2 with hc | hc <;> simp [hc]
  · intro envA r hr
    rcases create_row_provenance e envA gen st r hr with h1 | ⟨u, body, k, _, _, _, _, hrk, hblobs⟩
    · exact Or.inl h1
    · right
      rw [hblobs, hrk]
      exact List.mem_cons_self _ _

/-- C3 (counterexample): a Create call whose verified claim set lacks the
subject field produces a 500 response, not the 401 the claim states. -/
theorem c3_unauthorized_not_401 :
    (createDiagram noAuthEvent envOk gen0 st0).resp.statusCode = 500 ∧
    (createDiagram noAuthEvent envOk gen0 st0).resp.statusCode ≠ 401 :=
  ⟨by decide, by decide⟩

/-- C3 (amended): for every inbound request whose verified claim set lacks
the subject field (or carries an empty one), all four operations fail with
status 500 carrying the Unauthorized message, and the Create and Delete
operations leave the state unchanged. -/
theorem c3_missing_subject_yields_500 (e : Event) (envC : CreateEnv) (envF : FetchEnv)
    (envD : DeleteEnv) (gen : Gen) (st : St)
    (h : e.claimsSub = none ∨ e.claimsSub = some "") :
    (createDiagram e envC gen st).resp.statusCode = 500 ∧
    (createDiagram e envC gen st).resp.body =
      .err "Failed to create diagram" (some "Unauthorized: No valid user identity found") ∧
    (createDiagram e envC gen st).st = st ∧
    (listDiagrams e envF st).statusCode = 500 ∧
    (listDiagrams e envF st).body =
      .err "Failed to list diagrams" (some "Unauthorized: No valid user identity found") ∧
    (getDiagram e envF st).statusCode = 500 ∧
    (getDiagram e envF st).body =
      .err "Failed to get diagram" (some "Unauthorized: No valid user identity found") ∧
    (deleteDiagram e envD st).resp.statusCode = 500 ∧
    (deleteDiagram e envD st).resp.body =
      .err "Failed to delete diagram" (some "Unauthorized: No valid user identity found") ∧
    (deleteDiagram e envD st).st = st := by
  have hu : getUserId e = .error "Unauthorized: No valid user identity found" := by
    rcases h with h | h <;> simp [getUserId, h]
  refine ⟨?_, ?_, ?_, ?_, ?_, ?_, ?_, ?_, ?_, ?_⟩
  · unfold createDiagram; simp [hu]
  · unfold createDiagram; simp [hu]
  · unfold createDiagram; simp [hu]
  · unfold listDiagrams; simp [hu]
  · unfold listDiagrams; simp [hu]
  · unfold getDiagram; simp [hu]
  · unfold getDiagram; simp [hu]
  · unfold deleteDiagram; simp [hu]
  · unfold deleteDiagram; simp [hu]
  · unfold deleteDiagram; simp [hu]

theorem c3_missing_subject_yields_500_witness :
    (createDiagram noAuthEvent envOk gen0 st6).resp.statusCode = 500 ∧
    (createDiagram noAuthEvent envOk gen0 st6).resp.body =
      .err "Failed to create diagram" (some "Unauthorized: No valid user identity found") ∧
    (createDiagram noAuthEvent envOk gen0 st6).st = st6 ∧
    (listDiagrams noAuthEvent fenvOk st6).statusCode = 500 ∧
    (listDiagrams noAuthEvent fenvOk st6).body =
      .err "Failed to list diagrams" (some "Unauthorized: No valid user identity found") ∧
    (getDiagram noAuthEvent fenvOk st6).statusCode = 500 ∧
    (getDiagram noAuthEvent fenvOk st6).body =
      .err "Failed to get diagram" (some "Unauthorized: No valid user identity found") ∧
    (deleteDiagram noAuthEvent denvOk st6).resp.statusCode = 500 ∧
    (deleteDiagram noAuthEvent denvOk st6).resp.body =
      .err "Failed to delete diagram" (some "Unauthorized: No valid user identity found") ∧
    (deleteDiagram noAuthEvent denvOk st6).st = st6 :=
  c3_missing_subject_yields_500 noAuthEvent envOk fenvOk denvOk gen0 st6 (Or.inl rfl)

/-- C4 (counterexample): the row written by a successful Create has partition
key "USER#alice", which is not "OWNER#" followed by the owner id. -/
theorem c4_partition_key_uses_user_not_owner :
    ((createDiagram okEvent envOk gen0 st0).st.catalog.map (fun r => r.PK)) = ["USER#alice"] ∧
    ¬ ∀ r ∈ (createDiagram okEvent envOk gen0 st0).st.catalog, r.PK = "OWNER#" ++ "alice" :=
  ⟨by decide, by decide⟩

/-- C4 (amended): every catalog row written by Create has partition key
"USER#" followed by the owner id and sort key "DIAGRAM#" followed by the
createdAt timestamp, "#", and the diagram id. -/
theorem c4_row_keys (e : Event) (env : CreateEnv) (gen : Gen) (st : St) (u : String)
    (hu : getUserId e = .ok u) :
    ∀ r ∈ (createDiagram e env gen st).st.catalog,
      r ∈ st.catalog ∨
        (r.PK = "USER#" ++ u ∧
          r.SK = "DIAGRAM#" ++ gen.createdAt ++ "#" ++ gen.diagramId) := by
  intro r hr
  rcases create_row_provenance e env gen st r hr with h1 | ⟨v, body, k, hv, _, _, _, hrk, _⟩
  · exact Or.inl h1
  · have huv : v = u := by
      rw [hu] at hv
      exact (Except.ok.injEq _ _).mp hv.symm
    subst huv
    subst hrk
    exact Or.inr ⟨rfl, rfl⟩

theorem c4_row_keys_witness :
    newItem "alice" okBody gen0 "k1" ∈ st0.catalog ∨
      ((newItem "alice" okBody gen0 "k1").PK = "USER#" ++ "alice" ∧
        (newItem "alice" okBody gen0 "k1").SK =
          "DIAGRAM#" ++ gen0.createdAt ++ "#" ++ gen0.diagramId) :=
  c4_row_keys okEvent envOk gen0 st0 "alice" (by rfl)
    (newItem "alice" okBody gen0 "k1") (by decide)

/-- C5: a Create request whose body has an empty d2Text (or an empty or
missing diagramType) yields status 400, leaves the state unchanged, and
performs no external call at all (in particular no render and no catalog
write). -/
theorem c5_invalid_body_rejected_before_render (e : Event) (env : CreateEnv) (gen : Gen)
    (st : St) (u : String) (b : CreateDiagramRequest)
    (hu : getUserId e = .ok u) (hb : e.body = some (.parsed b))
    (hv : b.d2Text = "" ∨ b.diagramType = "") :
    (createDiagram e env gen st).resp.statusCode = 400 ∧
    (createDiagram e env gen st).st = st ∧
    (createDiagram e env gen st).calls = [] := by
  unfold createDiagram
  simp [hu, hb, hv]

theorem c5_invalid_body_rejected_before_render_witness :
    (createDiagram emptyTextEvent envOk gen0 st6).resp.statusCode = 400 ∧
    (createDiagram emptyTextEvent envOk gen0 st6).st = st6 ∧
    (createDiagram emptyTextEvent envOk gen0 st6).calls = [] :=
  c5_invalid_body_rejected_before_render emptyTextEvent envOk gen0 st6 "alice"
    ⟨"", "flow", none, none⟩ (by rfl) (by rfl) (Or.inl (by rfl))

/-- C10: when the render and the catalog write succeed but the access
descriptor or the content fetch fails, Create returns 500 while the new
catalog row and its blob persist. -/
theorem c10_post_put_failure_row_persists (e : Event) (env : CreateEnv) (gen : Gen) (st : St)
    (u : String) (b : CreateDiagramRequest) (k : String)
    (hu : getUserId e = .ok u) (hb : e.body = some (.parsed b))
    (hv : ¬ (b.d2Text = "" ∨ b.diagramType = ""))
    (hrd : renderD2Diagram env.renderOutcome = .ok k) (hp : env.putErr = none)
    (hf : ¬ ∃ url svg, env.sign k = .ok url ∧ fetchSvgFromS3 (env.s3get k) = .ok svg) :
    (createDiagram e env gen st).resp.statusCode = 500 ∧
    newItem u b gen k ∈ (createDiagram e env gen st).st.catalog ∧
    k ∈ (createDiagram e env gen st).st.blobs := by
  have hst := create_catalog_after_put e env gen st u b k hu hb hv hrd hp
  have hresp : (createDiagram e env gen st).resp.statusCode = 500 := by
    unfold createDiagram
    simp only [hu, hb, if_neg hv, hrd, hp]
    cases hs : env.sign k with
    | error m => rfl
    | ok url =>
      cases hfo : fetchSvgFromS3 (env.s3get k) with
      | error m => rfl
      | ok svg => exact absurd ⟨url, svg, hs, hfo⟩ hf
  refine ⟨hresp, ?_, ?_⟩
  · rw [hst]
    exact List.mem_cons_self _ _
  · rw [hst]
    exact List.mem_cons_self _ _

theorem c10_post_put_failure_row_persists_witness :
    (createDiagram okEvent envSignFails gen0 st0).resp.statusCode = 500 ∧
    newItem "alice" okBody gen0 "k1" ∈ (createDiagram okEvent envSignFails gen0 st0).st.catalog ∧
    "k1" ∈ (createDiagram okEvent envSignFails gen0 st0).st.blobs :=
  c10_post_put_failure_row_persists okEvent envSignFails gen0 st0 "alice" okBody "k1"
    (by rfl) (by rfl) (by decide) (by rfl) (by rfl)
    (by rintro ⟨url, svg, h1, h2⟩; simp [envSignFails] at h1)

theorem viewStep_ok_createdAt {env : FetchEnv} {r : CatalogRow} {v : DiagramView}
    (h : viewStep env r = .ok v) : v.createdAt = r.createdAt := by
  unfold viewStep at h
  cases hs : env.sign r.s3Key with
  | error m => rw [hs] at h; simp at h
  | ok url =>
    rw [hs] at h
    cases hf : fetchSvgFromS3 (env.s3get r.s3Key) with
    | error m => rw [hf] at h; simp at h
    | ok svg =>
      rw [hf] at h
      injection h with h2
      rw [← h2]

theorem promiseAll_ok_createdAts {env : FetchEnv} {l : List CatalogRow} {vs : List DiagramView}
    (h : promiseAll env l = .ok vs) :
    vs.map (fun v => v.createdAt) = l.map (fun r => r.createdAt) := by
  induction l generalizing vs with
  | nil =>
    unfold promiseAll at h
    injection h with h2
    rw [← h2]
    rfl
  | cons r rs ih =>
    unfold promiseAll at h
    cases hv : viewStep env r with
    | error m => rw [hv] at h; simp at h
    | ok v =>
      rw [hv] at h
      cases hpp : promiseAll env rs with
      | error m => rw [hpp] at h; simp at h
      | ok ws =>
        rw [hpp] at h
        injection h with h2
        rw [← h2]
        simp only [List.map_cons]
        rw [viewStep_ok_createdAt hv, ih hpp]

theorem mem_queryPKDesc {r : CatalogRow} {u : String} {cat : List CatalogRow}
    (h : r ∈ queryPKDesc u cat) : r ∈ cat ∧ r.PK = userPK u := by
  unfold queryPKDesc at h
  have h2 := List.mem_filter.mp ((List.mem_insertionSort skDesc).mp h)
  simpa using h2

theorem mem_queryByIdAsc {r : CatalogRow} {u id : String} {cat : List CatalogRow}
    (h : r ∈ queryByIdAsc u id cat) :
    r ∈ cat ∧ r.PK = userPK u ∧ r.diagramId = id := by
  unfold queryByIdAsc at h
  have h2 := List.mem_filter.mp ((List.mem_insertionSort skAsc).mp h)
  unfold matchRow at h2
  simp only [Bool.and_eq_true, beq_iff_eq] at h2
  exact ⟨h2.1, h2.2.1, h2.2.2⟩

theorem queryByIdAsc_singleton {u id : String} {cat : List CatalogRow} {item : CatalogRow}
    (h : queryByIdAsc u id cat = [item]) :
    cat.filter (matchRow u id) = [item] := by
  have hp := List.perm_insertionSort skAsc (cat.filter (matchRow u id))
  unfold queryByIdAsc at h
  rw [h] at hp
  exact List.perm_singleton.mp hp.symm

/-- C6 (counterexample): with two rows created at the same timestamp, List
succeeds with status 200 but its createdAt sequence is not strictly
descending. -/
theorem c6_list_not_strictly_descending :
    (listDiagrams listEvent fenvOk st6).statusCode = 200 ∧
    ¬ List.Pairwise (fun a b : String => lexLt b.data a.data = true)
      (listedCreatedAts (listDiagrams listEvent fenvOk st6)) :=
  ⟨by decide, by decide⟩

/-- C6 (amended): for every owner and every catalog whose rows are
well-formed (sort key assembled from the fixed-width createdAt and the id),
List returns the createdAt values in non-increasing order: descending, with
ties possible for equal createdAt. -/
theorem c6_list_createdAt_nonincreasing (e : Event) (env : FetchEnv) (st : St)
    (hwf : ∀ r ∈ st.catalog, RowWF r) :
    List.Pairwise (fun a b : String => lexLt a.data b.data = false)
      (listedCreatedAts (listDiagrams e env st)) := by
  cases hu : getUserId e with
  | error m =>
    have hlist : listDiagrams e env st = ⟨500, .err "Failed to list diagrams" (some m)⟩ := by
      unfold listDiagrams; simp only [hu]
    rw [hlist]
    simp [listedCreatedAts, listedViews]
  | ok u =>
    cases hp : promiseAll env (queryPKDesc u st.catalog) with
    | error m =>
      have hlist : listDiagrams e env st = ⟨500, .err "Failed to list diagrams" (some m)⟩ := by
        unfold listDiagrams; simp only [hu, hp]
      rw [hlist]
      simp [listedCreatedAts, listedViews]
    | ok vs =>
      have hlist : listDiagrams e env st = ⟨200, .listed vs⟩ := by
        unfold listDiagrams; simp only [hu, hp]
      have hval : listedCreatedAts (listDiagrams e env st) = vs.map (fun v => v.createdAt) := by
        rw [hlist]; rfl
      rw [hval, promiseAll_ok_createdAts hp, List.pairwise_map]
      have hsorted : List.Sorted skDesc (queryPKDesc u st.catalog) :=
        List.sorted_insertionSort skDesc _
      refine List.Pairwise.imp_of_mem ?_ hsorted
      intro a b ha hb hab
      exact skDesc_createdAt (hwf a (mem_queryPKDesc ha).1) (hwf b (mem_queryPKDesc hb).1) hab

theorem c6_list_createdAt_nonincreasing_witness :
    List.Pairwise (fun a b : String => lexLt a.data b.data = false)
      (listedCreatedAts (listDiagrams listEvent fenvOk st6)) :=
  c6_list_createdAt_nonincreasing listEvent fenvOk st6 (by decide)

/-- C8: Get and Delete on an id with no matching catalog row for the owner
return 404 and leave the state unchanged, so calling either twice returns
404 both times. -/
theorem c8_absent_id_not_found (e : Event) (envF : FetchEnv) (envD : DeleteEnv) (st : St)
    (u id : String)
    (hu : getUserId e = .ok u) (hid : e.pathDiagramId = some id) (hne : ¬ id = "")
    (habs : st.catalog.filter (matchRow u id) = []) :
    getDiagram e envF st = ⟨404, .err "Diagram not found" none⟩ ∧
    deleteDiagram e envD st = ⟨⟨404, .err "Diagram not found" none⟩, st, [], []⟩ ∧
    getDiagram e envF (deleteDiagram e envD st).st = ⟨404, .err "Diagram not found" none⟩ ∧
    (deleteDiagram e envD (deleteDiagram e envD st).st).resp.statusCode = 404 := by
  have hq : queryByIdAsc u id st.catalog = [] := by
    unfold queryByIdAsc; rw [habs]; rfl
  have hget : getDiagram e envF st = ⟨404, .err "Diagram not found" none⟩ := by
    unfold getDiagram; simp [hu, hid, hne, hq]
  have hdel : deleteDiagram e envD st = ⟨⟨404, .err "Diagram not found" none⟩, st, [], []⟩ := by
    unfold deleteDiagram; simp [hu, hid, hne, hq]
  refine ⟨hget, hdel, ?_, ?_⟩
  · rw [hdel]; exact hget
  · rw [hdel]; simp [hdel]

theorem c8_absent_id_not_found_witness :
    getDiagram absentIdEvent fenvOk st7 = ⟨404, .err "Diagram not found" none⟩ ∧
    deleteDiagram absentIdEvent denvOk st7 =
      ⟨⟨404, .err "Diagram not found" none⟩, st7, [], []⟩ ∧
    getDiagram absentIdEvent fenvOk (deleteDiagram absentIdEvent denvOk st7).st =
      ⟨404, .err "Diagram not found" none⟩ ∧
    (deleteDiagram absentIdEvent denvOk
      (deleteDiagram absentIdEvent denvOk st7).st).resp.statusCode = 404 :=
  c8_absent_id_not_found absentIdEvent fenvOk denvOk st7 "alice" "zz"
    (by rfl) (by rfl) (by decide) (by decide)

/-- C9: a catalog row of owner A is never selected by the partition queries
issued on behalf of a different owner B (so List, Get and Delete never
return it), every row List considers for B belongs to the B partition, and
a Delete issued by B never removes the row of A. -/
theorem c9_owner_isolation (A B id : String) (st : St) (rA : CatalogRow)
    (e : Event) (envD : DeleteEnv)
    (hAB : ¬ A = B) (hmem : rA ∈ st.catalog) (hPK : rA.PK = userPK A)
    (he : getUserId e = .ok B) :
    rA ∉ queryPKDesc B st.catalog ∧
    (∀ r ∈ queryPKDesc B st.catalog, r.PK = userPK B) ∧
    rA ∉ queryByIdAsc B id st.catalog ∧
    rA ∈ (deleteDiagram e envD st).st.catalog := by
  refine ⟨?_, ?_, ?_, ?_⟩
  · intro hin
    exact hAB (userPK_inj ((hPK.symm.trans (mem_queryPKDesc hin).2)))
  · intro r hr
    exact (mem_queryPKDesc hr).2
  · intro hin
    exact hAB (userPK_inj ((hPK.symm.trans (mem_queryByIdAsc hin).2.1)))
  · cases hid : e.pathDiagramId with
    | none =>
      have hst : (deleteDiagram e envD st).st = st := by
        unfold deleteDiagram; simp [he, hid]
      rw [hst]; exact hmem
    | some pid =>
      by_cases hne : pid = ""
      · have hst : (deleteDiagram e envD st).st = st := by
          unfold deleteDiagram; simp [he, hid, hne]
        rw [hst]; exact hmem
      · cases hq : queryByIdAsc B pid st.catalog with
        | nil =>
          have hst : (deleteDiagram e envD st).st = st := by
            unfold deleteDiagram; simp [he, hid, hne, hq]
          rw [hst]; exact hmem
        | cons item rest =>
          have hitem : item.PK = userPK B :=
            (mem_queryByIdAsc (hq ▸ List.mem_cons_self item rest)).2.1
          have hne2 : ¬ rA.PK = item.PK := by
            rw [hPK, hitem]
            intro hcon
            exact hAB (userPK_inj hcon)
          cases hs3 : envD.s3DelErr with
          | some m =>
            have hst : (deleteDiagram e envD st).st = st := by
              unfold deleteDiagram; simp [he, hid, hne, hq, hs3]
            rw [hst]; exact hmem
          | none =>
            cases hrow : envD.rowDelErr with
            | some m =>
              have hst : (deleteDiagram e envD st).st.catalog = st.catalog := by
                unfold deleteDiagram; simp [he, hid, hne, hq, hs3, hrow]
              rw [hst]; exact hmem
            | none =>
              have hst : (deleteDiagram e envD st).st.catalog =
                  st.catalog.filter (fun r => !(r.PK == item.PK && r.SK == item.SK)) := by
                unfold deleteDiagram; simp [he, hid, hne, hq, hs3, hrow]
              rw [hst]
              refine List.mem_filter.mpr ⟨hmem, ?_⟩
              simp [hne2]

theorem c9_owner_isolation_witness :
    rowA ∉ queryPKDesc "bob" st9.catalog ∧
    (∀ r ∈ queryPKDesc "bob" st9.catalog, r.PK = userPK "bob") ∧
    rowA ∉ queryByIdAsc "bob" "ida" st9.catalog ∧
    rowA ∈ (deleteDiagram delEventBob denvOk st9).st.catalog :=
  c9_owner_isolation "alice" "bob" "ida" st9 rowA delEventBob denvOk
    (by decide) (by decide) (by rfl) (by rfl)

theorem blobKey_not_mem_filtered (key : String) (blobs : List String) :
    key ∉ blobs.filter (fun kk => !(kk == key)) := by
  intro h
  have h2 := (List.mem_filter.mp h).2
  simp at h2

/-- C7: a completed Delete on an existing diagram issues the blob deletion
strictly before the catalog-row deletion; no state along the way has the
blob present while the catalog row is already absent, and after completion
neither the blob nor the row exists. -/
theorem c7_blob_deleted_before_row (e : Event) (envD : DeleteEnv) (st : St)
    (u id : String) (item : CatalogRow)
    (hu : getUserId e = .ok u) (hid : e.pathDiagramId = some id) (hne : ¬ id = "")
    (hq : queryByIdAsc u id st.catalog = [item])
    (hs3 : envD.s3DelErr = none) (hrow : envD.rowDelErr = none) :
    (deleteDiagram e envD st).resp.statusCode = 200 ∧
    (deleteDiagram e envD st).calls = [ExtCall.blobDelete, ExtCall.rowDelete] ∧
    (∀ s ∈ st :: (deleteDiagram e envD st).states,
      ¬ (item.s3Key ∈ s.blobs ∧ ¬ rowPresent u id s)) ∧
    item.s3Key ∉ (deleteDiagram e envD st).st.blobs ∧
    ¬ rowPresent u id (deleteDiagram e envD st).st := by
  have hfil : st.catalog.filter (matchRow u id) = [item] := queryByIdAsc_singleton hq
  have hmem3 := mem_queryByIdAsc (hq ▸ List.mem_cons_self item [])
  have hpres : rowPresent u id st := ⟨item, hmem3.1, hmem3.2.1, hmem3.2.2⟩
  have hdel : deleteDiagram e envD st =
      ⟨⟨200, .deleted "Diagram deleted successfully"⟩,
        ⟨st.catalog.filter (fun r => !(r.PK == item.PK && r.SK == item.SK)),
          st.blobs.filter (fun kk => !(kk == item.s3Key))⟩,
        [ExtCall.blobDelete, ExtCall.rowDelete],
        [⟨st.catalog, st.blobs.filter (fun kk => !(kk == item.s3Key))⟩,
          ⟨st.catalog.filter (fun r => !(r.PK == item.PK && r.SK == item.SK)),
            st.blobs.filter (fun kk => !(kk == item.s3Key))⟩]⟩ := by
    unfold deleteDiagram
    simp [hu, hid, hne, hq, hs3, hrow]
  have hnorow : ¬ rowPresent u id
      ⟨st.catalog.filter (fun r => !(r.PK == item.PK && r.SK == item.SK)),
        st.blobs.filter (fun kk => !(kk == item.s3Key))⟩ := by
    rintro ⟨r, hrmem, hrPK, hrId⟩
    have h2 := List.mem_filter.mp hrmem
    have hr3 : r ∈ st.catalog.filter (matchRow u id) :=
      List.mem_filter.mpr ⟨h2.1, by simp [matchRow, hrPK, hrId]⟩
    rw [hfil] at hr3
    have hr4 : r = item := by simpa using hr3
    subst hr4
    simp at h2
  refine ⟨by rw [hdel], by rw [hdel], ?_, ?_, ?_⟩
  · intro s hs
    rw [hdel] at hs
    simp only [List.mem_cons, List.mem_singleton] at hs
    rcases hs with h | h | h | h
    · subst h
      rintro ⟨_, hnp⟩
      exact hnp hpres
    · subst h
      rintro ⟨hkey, _⟩
      exact blobKey_not_mem_filtered item.s3Key st.blobs hkey
    · subst h
      rintro ⟨hkey, _⟩
      exact blobKey_not_mem_filtered item.s3Key st.blobs hkey
    · exact absurd h (by simp)
  · rw [hdel]
    exact blobKey_not_mem_filtered item.s3Key st.blobs
  · rw [hdel]
    exact hnorow

theorem c7_blob_deleted_before_row_witness :
    (deleteDiagram delEventA denvOk st7).resp.statusCode = 200 ∧
    (deleteDiagram delEventA denvOk st7).calls = [ExtCall.blobDelete, ExtCall.rowDelete] ∧
    (∀ s ∈ st7 :: (deleteDiagram delEventA denvOk st7).states,
      ¬ (rowA.s3Key ∈ s.blobs ∧ ¬ rowPresent "alice" "ida" s)) ∧
    rowA.s3Key ∉ (deleteDiagram delEventA denvOk st7).st.blobs ∧
    ¬ rowPresent "alice" "ida" (deleteDiagram delEventA denvOk st7).st :=
  c7_blob_deleted_before_row delEventA denvOk st7 "alice" "ida" rowA
    (by rfl) (by rfl) (by decide) (by decide) (by rfl) (by rfl)

theorem c2_render_failure_no_catalog_row_witness :
    (createDiagram okEvent envRenderDown gen0 st6).st.catalog = st6.catalog ∧
    ExtCall.putCatalog ∉ (createDiagram okEvent envRenderDown gen0 st6).calls ∧
    ∀ envA : CreateEnv, ∀ r ∈ (createDiagram okEvent envA gen0 st6).st.catalog,
      r ∈ st6.catalog ∨ r.s3Key ∈ (createDiagram okEvent envA gen0 st6).st.blobs :=
  c2_render_failure_no_catalog_row okEvent envRenderDown gen0 st6
    genericRenderFailureMsg (by rfl)

end D2
